import Mathlib

/-!
Verification of the signal-validation and execution core of the
swift-ai-trader repository.  The Rust sources are shallowly embedded:
`f64` values become `ℚ` (exact arithmetic), `i64` becomes `ℤ`,
`Duration` samples become `ℕ`, fallible code returns `Except String`,
the Redis shared-state store becomes an explicit `Store` record whose
read results distinguish a missing key from an unavailable store, and
`std::time::SystemTime::now()` becomes an explicit `now` parameter.
-/

set_option autoImplicit false

namespace SwiftAiTrader

/-- Rendering of a numeric value inside a message string; embeds the
interpolation done by the Rust `format!` macro-free display of numbers. -/
def numStr (q : ℚ) : String := toString q

/-- Result of one store read of a single typed value, as seen by the Rust
code: `Except.error` is a failed store round-trip (store unavailable during
the read, with the error's display text), `Except.ok none` is a missing or
unparsable key, `Except.ok (some v)` a successful read. -/
abbrev ReadResult (α : Type) := Except String (Option α)

/-- Embeds `.unwrap_or(d)` applied to a Redis read: both a failed
round-trip and a missing key collapse to the default. -/
def readOr {α : Type} (d : α) : ReadResult α → α
  | Except.error _ => d
  | Except.ok none => d
  | Except.ok (some v) => v

/-! ## Order executor (engine_agents/execution/src/core/order_executor.rs) -/

/-- Embeds `OrderExecutor::validate_order` from
`engine_agents/execution/src/core/order_executor.rs` (lines 157-178):
kind must be BUY or SELL, size positive, symbol non-empty, size at most
`max_order_size` (config default 100000.0). -/
def validate_order (max_order_size : ℚ) (signal : String) (size : ℚ)
    (symbol : String) : Bool :=
  if signal ≠ "BUY" ∧ signal ≠ "SELL" then false
  else if size ≤ 0 then false
  else if symbol.isEmpty then false
  else if size > max_order_size then false
  else true

/-- Embeds the control flow of `OrderExecutor::execute_order` from
`engine_agents/execution/src/core/order_executor.rs`: when
`validate_order` fails the function returns the `Invalid order
parameters` error before any broker dispatch; otherwise the (currently
simplified, always-`Ok`) dispatch runs.  The boolean records whether the
broker-dispatch section was reached. -/
def execute_order (max_order_size : ℚ) (signal : String) (size : ℚ)
    (symbol : String) : Except String Unit × Bool :=
  if validate_order max_order_size signal size symbol = false then
    (Except.error "Invalid order parameters", false)
  else
    (Except.ok (), true)

/-- Embeds `OrderExecutor::validate_order` from
`engine/execution/src/core/order_executor.rs` (lines 46-48).  The Rust
expression `signal == "BUY" || signal == "SELL" && size > 0.0 &&
!symbol.is_empty()` parses with `&&` binding tighter than `||`, which
the parenthesisation below makes explicit. -/
def validate_order_engine (signal : String) (size : ℚ) (symbol : String) : Bool :=
  signal == "BUY" || (signal == "SELL" && decide (size > 0) && !symbol.isEmpty)

/-- Embeds the control flow of `OrderExecutor::execute_order` from
`engine/execution/src/core/order_executor.rs`: validation gate, then
broker dispatch (`place_order`, abstracted by the `broker` argument).
The boolean records whether dispatch was attempted. -/
def execute_order_engine (broker : Except String Unit) (signal : String)
    (size : ℚ) (symbol : String) : Except String Unit × Bool :=
  if validate_order_engine signal size symbol = false then
    (Except.error "Invalid order parameters", false)
  else
    match broker with
    | Except.ok _ => (Except.ok (), true)
    | Except.error e => (Except.error e, true)

/-! ## Slippage controller (engine/execution/src/core/slippage_controller.rs) -/

/-- Embeds `SlippageController::check_slippage` (lines 22-30): computes
`slippage_bps = |actual - expected| / expected * 10000`, rejects when it
strictly exceeds the configured maximum, otherwise returns the slippage
value that is passed to `metrics.log_slippage` (the recorded slippage). -/
def check_slippage (max_slippage_bps : ℚ) (expected_price actual_price : ℚ) :
    Except String ℚ :=
  let slippage_bps := |actual_price - expected_price| / expected_price * 10000
  if slippage_bps > max_slippage_bps then
    Except.error ("Slippage " ++ numStr slippage_bps ++ " bps " ++
      "exceeds limit" ++ (" " ++ numStr max_slippage_bps ++ " bps"))
  else
    Except.ok slippage_bps

/-- State of a `SlippageController` (the only mutable field). -/
structure SlippageController where
  max_slippage_bps : ℚ
  deriving DecidableEq

/-- Embeds `SlippageController::update_slippage_limit` (lines 32-39):
a non-positive new limit is rejected and the state is returned
unchanged; otherwise the limit is replaced. -/
def update_slippage_limit (s : SlippageController) (new_limit_bps : ℚ) :
    Except String Unit × SlippageController :=
  if new_limit_bps ≤ 0 then (Except.error "Invalid slippage limit", s)
  else (Except.ok (), { max_slippage_bps := new_limit_bps })

/-! ## Risk filters (engine_agents/execution/src/utils/risk_filters.rs) -/

/-- Mutable limit state of `RiskFilters`. -/
structure RiskFilters where
  max_daily_loss : ℚ
  max_order_size : ℚ
  deriving DecidableEq

/-- Embeds `RiskFilters::update_risk_limits` (lines 40-47): the guard
rejects a non-positive `max_daily_loss` or `max_order_size` before
either field is assigned, so on the error path both limits are
unchanged. -/
def update_risk_limits (s : RiskFilters) (max_daily_loss max_order_size : ℚ) :
    Except String Unit × RiskFilters :=
  if max_daily_loss ≤ 0 ∨ max_order_size ≤ 0 then
    (Except.error "Invalid risk limits", s)
  else
    (Except.ok (), { max_daily_loss := max_daily_loss, max_order_size := max_order_size })

/-! ## Latency monitor (engine_agents/execution/src/utils/latency_monitor.rs) -/

/-- Embeds the in-memory ring update inside
`LatencyMonitor::end_measurement` (lines 31-44): push the new duration,
then if the length exceeds 100 remove the oldest element
(`measurements.remove(0)`). -/
def pushMeasurement (measurements : List ℕ) (duration : ℕ) : List ℕ :=
  let ms := measurements ++ [duration]
  if 100 < ms.length then ms.drop 1 else ms

/-- Embeds `LatencyMonitor::get_percentile_latency` (lines 157-170):
looks up the operation's samples, sorts a copy, and indexes it at
`(percentile * n) as usize`, i.e. the truncation of `percentile * n`
(saturating at 0 for negative values), with no clamping to the valid
range. -/
def get_percentile_latency (measurements : List (String × List ℕ))
    (operation : String) (percentile : ℚ) : Option ℕ :=
  match measurements.lookup operation with
  | none => none
  | some ms =>
    if ms.isEmpty then none
    else
      let sorted := ms.insertionSort (· ≤ ·)
      let index := (⌊percentile * (ms.length : ℚ)⌋).toNat
      sorted.get? index

/-- Persisted per-symbol running-average state kept by
`OrderExecutor::log_successful_execution`: the `execution:avg_latency:…`
value and its `…:count` companion (both `unwrap_or` 0 when absent). -/
structure AvgState where
  avg : ℚ
  count : ℤ
  deriving DecidableEq

/-- Embeds the running-average update of
`OrderExecutor::log_successful_execution` (lines 107-128):
`new_avg = (current_avg * current_count + latency) / (current_count + 1)`
and the count is incremented. -/
def log_successful_execution_update (s : AvgState) (latency_ms : ℚ) : AvgState :=
  { avg := (s.avg * (s.count : ℚ) + latency_ms) / ((s.count : ℚ) + 1),
    count := s.count + 1 }

/-- Persisted cumulative statistics kept by
`LatencyMonitor::store_latency_metric` for one operation: the
`execution:latency:{op}:count` and `…:sum` keys and the stored
`avg_ms` hash field. -/
structure LatencyStats where
  count : ℤ
  sum : ℚ
  avg_ms : ℚ
  deriving DecidableEq

/-- Embeds the cumulative update of
`LatencyMonitor::store_latency_metric` (lines 95-110): the count and sum
are incremented and the stored average is `(sum + latency) / (count + 1)`. -/
def store_latency_metric_update (s : LatencyStats) (latency_ms : ℚ) : LatencyStats :=
  { count := s.count + 1,
    sum := s.sum + latency_ms,
    avg_ms := (s.sum + latency_ms) / ((s.count : ℚ) + 1) }

/-! ## Signal input and shared-state store models (validation pipeline) -/

/-- The signal input, i.e. the `HashMap<String, Value>` flowing through the
validation pipeline projected onto the fields the validators read.  A field
is `none` when it is absent or of the wrong JSON type (the Rust code reads
each field with `get(..).and_then(as_i64 / as_str / as_f64)`). -/
structure Input where
  timestamp : Option ℤ
  symbol : Option String
  size : Option ℚ
  leverage : Option ℚ
  stop_loss : Option ℚ
  entry_price : Option ℚ
  exit_price : Option ℚ
  take_profit : Option ℚ
  signal : Option String
  region : Option String
  deriving DecidableEq

/-- Shared-state (Redis) store as seen by the validators: whether a
connection can be established (`get_async_connection`), the display text of
the connection error, and the outcome of each typed read the validators
issue. -/
structure Store where
  connOk : Bool
  connErr : String
  exposure : String → ReadResult ℚ
  depth : String → ReadResult ℚ
  signals : String → Except String (List String)
  restricted : String → ReadResult (List String)

/-- Embeds `serde_json::to_string(input)` as used by the strategy filter's
duplicate check: a canonical rendering of the present fields.  The claims
never depend on the concrete rendering, only on membership of the rendered
string in the stored history. -/
def serializeInput (input : Input) : String :=
  toString (repr input.timestamp) ++ "|" ++ toString input.symbol ++ "|" ++
  toString (repr input.size) ++ "|" ++ toString (repr input.leverage) ++ "|" ++
  toString (repr input.stop_loss) ++ "|" ++ toString (repr input.entry_price) ++ "|" ++
  toString (repr input.exit_price) ++ "|" ++ toString (repr input.take_profit) ++ "|" ++
  toString input.signal ++ "|" ++ toString input.region

/-! ## Validators -/

/-- Embeds `RiskAssessor::validate` from
`engine/validation/src/validators/risk/risk_assessor.rs` (lines 26-43):
missing symbol/size are errors, a missing leverage defaults to `1.0`
(`unwrap_or(1.0)`), the leverage limit is checked, then the portfolio
exposure is read (`unwrap_or(0.0)` on the GET) after obtaining a
connection (`?` on failure) and the total exposure limit is checked.
Config defaults: `max_leverage = 10.0`, `max_exposure = 0.1`. -/
def riskAssessorValidate (max_leverage max_exposure : ℚ) (store : Store)
    (input : Input) : Except String Unit :=
  match input.symbol with
  | none => Except.error "Missing symbol"
  | some symbol =>
  match input.size with
  | none => Except.error "Missing size"
  | some size =>
  let leverage := input.leverage.getD 1
  if leverage > max_leverage then
    Except.error ("Leverage " ++ numStr leverage ++ " exceeds limit " ++ numStr max_leverage)
  else if store.connOk = false then
    Except.error store.connErr
  else
    let portfolio_exposure := readOr 0 (store.exposure symbol)
    let total_exposure := portfolio_exposure + size * leverage
    if total_exposure > max_exposure then
      Except.error ("Total exposure " ++ numStr total_exposure ++ " exceeds limit " ++ numStr max_exposure)
    else
      Except.ok ()

/-- Embeds `StopLossChecker::validate` from
`engine/validation/src/validators/risk/stop_loss_checker.rs` (lines
19-35): direction-aware stop-loss ratio, rejected when its absolute
value is below `min_sl_ratio` (default `0.01`). -/
def stopLossCheckerValidate (min_sl_ratio : ℚ) (input : Input) : Except String Unit :=
  match input.stop_loss with
  | none => Except.error "Missing stop-loss"
  | some stop_loss =>
  match input.entry_price with
  | none => Except.error "Missing entry price"
  | some entry_price =>
  match input.signal with
  | none => Except.error "Missing signal"
  | some signal =>
  let sl_ratio := if signal = "BUY" then (entry_price - stop_loss) / entry_price
                  else (stop_loss - entry_price) / entry_price
  if |sl_ratio| < min_sl_ratio then
    Except.error ("Stop-loss ratio " ++ numStr sl_ratio ++ " below minimum " ++ numStr min_sl_ratio)
  else
    Except.ok ()

/-- Embeds `StrategyFilter::validate` from
`engine/validation/src/validators/strategy/strategy_filter.rs` (lines
23-45): staleness against `max_time_window` (default 300), positivity of
entry/exit prices, then the duplicate check against the stored recent
history (the LRANGE uses `?`, so a store error propagates). -/
def strategyFilterValidate (max_time_window : ℤ) (now : ℤ) (store : Store)
    (input : Input) : Except String Unit :=
  match input.timestamp with
  | none => Except.error "Missing timestamp"
  | some timestamp =>
  match input.entry_price with
  | none => Except.error "Missing entry price"
  | some entry_price =>
  match input.exit_price with
  | none => Except.error "Missing exit price"
  | some exit_price =>
  match input.symbol with
  | none => Except.error "Missing symbol"
  | some symbol =>
  if now - timestamp > max_time_window then
    Except.error ("Strategy timestamp exceeds " ++ toString max_time_window ++ " seconds")
  else if entry_price ≤ 0 ∨ exit_price ≤ 0 then
    Except.error "Invalid entry or exit price"
  else if store.connOk = false then
    Except.error store.connErr
  else
    match store.signals symbol with
    | Except.error e => Except.error e
    | Except.ok historical_signals =>
      if serializeInput input ∈ historical_signals then
        Except.error "Duplicate strategy signal detected"
      else
        Except.ok ()

/-- Embeds `GoalAlignment::validate` from
`engine_agents/validation/src/validators/strategy/goal_alignment.rs`
(lines 19-47): direction-aware risk and reward, zero risk rejected,
reward/risk ratio rejected above `max_risk_reward_ratio` (default 2.0). -/
def goalAlignmentValidate (max_risk_reward_ratio : ℚ) (input : Input) :
    Except String Unit :=
  match input.stop_loss with
  | none => Except.error "Missing stop-loss"
  | some stop_loss =>
  match input.take_profit with
  | none => Except.error "Missing take-profit"
  | some take_profit =>
  match input.entry_price with
  | none => Except.error "Missing entry price"
  | some entry_price =>
  match input.signal with
  | none => Except.error "Missing signal"
  | some signal =>
  let risk := |if signal = "BUY" then entry_price - stop_loss else stop_loss - entry_price|
  let reward := |if signal = "BUY" then take_profit - entry_price else entry_price - take_profit|
  if risk = 0 then
    Except.error "Invalid risk: stop-loss equals entry price"
  else
    let risk_reward_ratio := reward / risk
    if risk_reward_ratio > max_risk_reward_ratio then
      Except.error ("Risk-reward ratio " ++ numStr risk_reward_ratio ++ " exceeds limit " ++ numStr max_risk_reward_ratio)
    else
      Except.ok ()

/-- Embeds `LiquidityValidator::validate` from
`engine_agents/validation/src/validators/market_conditions/liquidity_validator.rs`
(lines 23-36): market depth read with `unwrap_or(0.0)`, rejection when the
depth is zero or `size / depth` exceeds `min_liquidity_ratio` (default
0.05).  (In `ℚ` the division by a zero depth yields 0; the first disjunct
makes the branch taken identical to the `f64` code's.) -/
def liquidityValidatorValidate (min_liquidity_ratio : ℚ) (store : Store)
    (input : Input) : Except String Unit :=
  match input.symbol with
  | none => Except.error "Missing symbol"
  | some symbol =>
  match input.size with
  | none => Except.error "Missing size"
  | some size =>
  if store.connOk = false then
    Except.error store.connErr
  else
    let market_depth := readOr 0 (store.depth symbol)
    let liquidity_ratio := size / market_depth
    if market_depth = 0 ∨ liquidity_ratio > min_liquidity_ratio then
      Except.error ("Liquidity ratio " ++ numStr liquidity_ratio ++ " exceeds limit " ++ numStr min_liquidity_ratio ++ " for " ++ symbol)
    else
      Except.ok ()

/-- Embeds `Compliance::validate` from
`engine/validation/src/validators/ccc/compliance.rs` (lines 26-41):
region allow-list check, then the restricted-symbol set is read
(`unwrap_or(vec![])` on the GET) after obtaining a connection (`?` on
failure). -/
def complianceValidate (allowed_regions : List String) (store : Store)
    (input : Input) : Except String Unit :=
  match input.symbol with
  | none => Except.error "Missing symbol"
  | some symbol =>
  match input.region with
  | none => Except.error "Missing region"
  | some region =>
  if ¬ allowed_regions.contains region then
    Except.error ("Region " ++ region ++ " not allowed for " ++ symbol)
  else if store.connOk = false then
    Except.error store.connErr
  else
    let restricted_symbols := readOr [] (store.restricted region)
    if restricted_symbols.contains symbol then
      Except.error ("Symbol " ++ symbol ++ " restricted in " ++ region)
    else
      Except.ok ()

/-! ## Validation router (engine_agents/validation/src/router.rs) -/

/-- The per-check boolean detail map of a verdict (Rust
`HashMap<String, bool>`), represented as an insertion-ordered
association list with distinct keys. -/
abbrev Details := List (String × Bool)

/-- Embeds `HashMap::insert`: replaces the value when the key is present,
otherwise appends the new entry. -/
def detailsInsert (d : Details) (k : String) (v : Bool) : Details :=
  if d.any (fun p => p.1 = k) then
    d.map (fun p => if p.1 = k then (k, v) else p)
  else
    d ++ [(k, v)]

/-- The `ValidationResult` struct from `engine/validation/src/lib.rs`. -/
structure ValidationResult where
  status : String
  reason : String
  details : Details
  deriving DecidableEq

/-- The router's configuration, one field per threshold read (with its
`unwrap_or` default) by the validators the router constructs. -/
structure RouterConfig where
  max_leverage : ℚ := 10
  max_exposure : ℚ := 1/10
  min_sl_ratio : ℚ := 1/100
  max_time_window : ℤ := 300
  max_risk_reward_ratio : ℚ := 2
  min_liquidity_ratio : ℚ := 1/20

/-- Embeds `Router::validate_data` (router.rs lines 65-83): required
timestamp/symbol/size, freshness within 60 seconds of `now`, non-empty
symbol, positive size; the failing branch inserts its detail entry. -/
def validate_data (now : ℤ) (input : Input) (details : Details) :
    Except String Unit × Details :=
  match input.timestamp with
  | none => (Except.error "Missing timestamp", details)
  | some timestamp =>
  match input.symbol with
  | none => (Except.error "Missing symbol", details)
  | some symbol =>
  match input.size with
  | none => (Except.error "Missing size", details)
  | some size =>
  if |now - timestamp| > 60 then
    (Except.error "Timestamp not fresh", detailsInsert details "timestamp_freshness" false)
  else if symbol.isEmpty then
    (Except.error "Invalid symbol", detailsInsert details "symbol_valid" false)
  else if size ≤ 0 then
    (Except.error "Invalid size", detailsInsert details "size_valid" false)
  else
    (Except.ok (), details)

/-- Embeds `Router::validate` (router.rs lines 31-63): the data-sanity
pass then the five validators in declared order as an else-if chain; the
first failure sets the status, the stage-labelled reason and the stage's
detail entry; finally `data_check` is inserted with the value
`status == "valid"`.  The second component records, in order, the checks
that were actually evaluated. -/
def routerValidateTrace (cfg : RouterConfig) (now : ℤ) (store : Store)
    (input : Input) : ValidationResult × List String :=
  let r :=
    match validate_data now input [] with
    | (Except.error e, d) => ("reject", e, d, ["data"])
    | (Except.ok _, d) =>
      match riskAssessorValidate cfg.max_leverage cfg.max_exposure store input with
      | Except.error e =>
        ("reject", "Risk validation failed: " ++ e, detailsInsert d "risk_check" false,
         ["data", "risk"])
      | Except.ok _ =>
      match stopLossCheckerValidate cfg.min_sl_ratio input with
      | Except.error e =>
        ("reject", "Stop-loss validation failed: " ++ e, detailsInsert d "stop_loss_check" false,
         ["data", "risk", "stop_loss"])
      | Except.ok _ =>
      match strategyFilterValidate cfg.max_time_window now store input with
      | Except.error e =>
        ("reject", "Strategy validation failed: " ++ e, detailsInsert d "strategy_check" false,
         ["data", "risk", "stop_loss", "strategy"])
      | Except.ok _ =>
      match goalAlignmentValidate cfg.max_risk_reward_ratio input with
      | Except.error e =>
        ("reject", "Goal alignment failed: " ++ e, detailsInsert d "goal_check" false,
         ["data", "risk", "stop_loss", "strategy", "goal"])
      | Except.ok _ =>
      match liquidityValidatorValidate cfg.min_liquidity_ratio store input with
      | Except.error e =>
        ("reject", "Liquidity validation failed: " ++ e, detailsInsert d "liquidity_check" false,
         ["data", "risk", "stop_loss", "strategy", "goal", "liquidity"])
      | Except.ok _ =>
        ("valid", "All checks passed", d,
         ["data", "risk", "stop_loss", "strategy", "goal", "liquidity"])
  match r with
  | (status, reason, details, trace) =>
    (ValidationResult.mk status reason (detailsInsert details "data_check" (status == "valid")),
     trace)

/-- `Router::validate`'s returned verdict. -/
def routerValidate (cfg : RouterConfig) (now : ℤ) (store : Store)
    (input : Input) : ValidationResult :=
  (routerValidateTrace cfg now store input).1

/-- Whether an `Except` result is an error. -/
def isErr {ε α : Type} : Except ε α → Bool
  | Except.error _ => true
  | Except.ok _ => false

/-- The six router checks in declared order, each paired with the result
it would produce on this input and store state. -/
def routerChecks (cfg : RouterConfig) (now : ℤ) (store : Store)
    (input : Input) : List (String × Except String Unit) :=
  [("data", (validate_data now input []).1),
   ("risk", riskAssessorValidate cfg.max_leverage cfg.max_exposure store input),
   ("stop_loss", stopLossCheckerValidate cfg.min_sl_ratio input),
   ("strategy", strategyFilterValidate cfg.max_time_window now store input),
   ("goal", goalAlignmentValidate cfg.max_risk_reward_ratio input),
   ("liquidity", liquidityValidatorValidate cfg.min_liquidity_ratio store input)]

/-- The checks, in declared order, that would fail on this input. -/
def failingChecks (cfg : RouterConfig) (now : ℤ) (store : Store)
    (input : Input) : List (String × Except String Unit) :=
  (routerChecks cfg now store input).filter (fun p => isErr p.2)

/-- The reason string the router produces when the named check fails with
message `e`: validator stages carry their stage label, the data-sanity
pass reports its message bare. -/
def stageMessage (name : String) (e : String) : String :=
  match name with
  | "risk" => "Risk validation failed: " ++ e
  | "stop_loss" => "Stop-loss validation failed: " ++ e
  | "strategy" => "Strategy validation failed: " ++ e
  | "goal" => "Goal alignment failed: " ++ e
  | "liquidity" => "Liquidity validation failed: " ++ e
  | _ => e

/-- The checks up to and including the named one, in declared order. -/
def stagesUpTo (name : String) : List String :=
  match name with
  | "data" => ["data"]
  | "risk" => ["data", "risk"]
  | "stop_loss" => ["data", "risk", "stop_loss"]
  | "strategy" => ["data", "risk", "stop_loss", "strategy"]
  | "goal" => ["data", "risk", "stop_loss", "strategy", "goal"]
  | "liquidity" => ["data", "risk", "stop_loss", "strategy", "goal", "liquidity"]
  | _ => []

/-- The detail-map key the router records for a failing validator stage. -/
def checkKey (name : String) : String := name ++ "_check"

/-! ## Concrete states used by witnesses and counterexamples -/

/-- A healthy store: connection up, no recorded exposure, deep market,
no recent signals, no restrictions. -/
def storeHealthy : Store where
  connOk := true
  connErr := ""
  exposure := fun _ => Except.ok none
  depth := fun _ => Except.ok (some 1000)
  signals := fun _ => Except.ok []
  restricted := fun _ => Except.ok none

/-- A store whose connection succeeds but whose reads all fail with an
I/O error (the store became unavailable between connecting and reading). -/
def storeReadsFail : Store where
  connOk := true
  connErr := ""
  exposure := fun _ => Except.error "broken pipe"
  depth := fun _ => Except.error "broken pipe"
  signals := fun _ => Except.error "broken pipe"
  restricted := fun _ => Except.error "broken pipe"

/-- A store whose connection cannot be established. -/
def storeDown : Store where
  connOk := false
  connErr := "redis connection refused"
  exposure := fun _ => Except.error "redis connection refused"
  depth := fun _ => Except.error "redis connection refused"
  signals := fun _ => Except.error "redis connection refused"
  restricted := fun _ => Except.error "redis connection refused"

/-- A complete, well-formed signal except that the leverage field is
absent. -/
def inputNoLeverage : Input where
  timestamp := some 1000
  symbol := some "EURUSD"
  size := some (1/100)
  leverage := none
  stop_loss := some 98
  entry_price := some 100
  exit_price := some 110
  take_profit := some 105
  signal := some "BUY"
  region := some "US"

/-- A well-formed signal in the US region with no leverage field. -/
def inputUS : Input := inputNoLeverage

/-- A store that is healthy except that the recorded market depth is zero,
which makes the liquidity check fail. -/
def storeDepthZero : Store where
  connOk := true
  connErr := ""
  exposure := fun _ => Except.ok none
  depth := fun _ => Except.ok (some 0)
  signals := fun _ => Except.ok []
  restricted := fun _ => Except.ok none

/-- A signal violating two checks at once: its leverage 100 exceeds the
default limit 10 (risk check) and, against `storeDepthZero`, the liquidity
check also fails; every other check passes. -/
def inputTwoViolations : Input where
  timestamp := some 1000
  symbol := some "EURUSD"
  size := some 1
  leverage := some 100
  stop_loss := some 98
  entry_price := some 100
  exit_price := some 110
  take_profit := some 103
  signal := some "BUY"
  region := some "US"

/-! ## C4: the in-memory latency ring keeps the most recent 100 samples -/

/-- Feeding the ring update any sequence of measurements leaves exactly the
last `min n 100` of them, in arrival order. -/
theorem foldl_pushMeasurement (L : List ℕ) :
    L.foldl pushMeasurement [] = L.drop (L.length - 100) := by
  induction L using List.reverseRecOn with
  | nil => rfl
  | append_singleton L x ih =>
    rw [List.foldl_append, List.foldl_cons, List.foldl_nil, ih]
    unfold pushMeasurement
    by_cases h : L.length < 100
    · have h1 : L.length - 100 = 0 := by omega
      have h2 : (L ++ [x]).length - 100 = 0 := by
        rw [List.length_append]; simp; omega
      rw [h1, h2, List.drop_zero, List.drop_zero, if_neg]
      rw [List.length_append]; simp; omega
    · have hlen : (L.drop (L.length - 100)).length = 100 := by
        rw [List.length_drop]; omega
      rw [if_pos]
      · have h1 : 1 ≤ (L.drop (L.length - 100)).length := by omega
        rw [List.drop_append_of_le_length h1, List.drop_drop,
          List.drop_append_of_le_length
            (by rw [List.length_append]; simp : (L ++ [x]).length - 100 ≤ L.length)]
        congr 1
        · congr 1
          rw [List.length_append]; simp; omega
      · rw [List.length_append, hlen]; simp

/-- C4: for every operation, after N > 100 calls to `end_measurement` the
in-memory sample list holds exactly 100 elements, namely the most recent
100 measurements in arrival order (`L.drop (L.length - 100)` is the suffix
of the last 100 arrivals, oldest evicted first). -/
theorem ring_bound_last_100 (L : List ℕ) (h : 100 < L.length) :
    L.foldl pushMeasurement [] = L.drop (L.length - 100) ∧
    (L.foldl pushMeasurement []).length = 100 := by
  refine ⟨foldl_pushMeasurement L, ?_⟩
  rw [foldl_pushMeasurement L, List.length_drop]
  omega

/-- Concrete witness for C4: 101 identical measurements leave a ring of
exactly 100 samples, the last 100 of the input. -/
theorem ring_bound_last_100_witness :
    100 < (List.replicate 101 7).length ∧
    (List.replicate 101 7).foldl pushMeasurement [] =
      (List.replicate 101 7).drop ((List.replicate 101 7).length - 100) ∧
    ((List.replicate 101 7).foldl pushMeasurement []).length = 100 := by
  refine ⟨by decide, ?_⟩
  exact ring_bound_last_100 (List.replicate 101 7) (by decide)

/-! ## C5: the persisted running average equals the arithmetic mean -/

/-- Invariant of the `log_successful_execution` fold: the count advances by
the number of updates and `avg * count` tracks the accumulated sum. -/
theorem avg_fold_invariant (L : List ℚ) : ∀ s : AvgState,
    (L.foldl log_successful_execution_update s).count = s.count + L.length ∧
    (0 ≤ s.count →
      (L.foldl log_successful_execution_update s).avg *
        ((s.count : ℚ) + (L.length : ℚ)) = s.avg * (s.count : ℚ) + L.sum) := by
  induction L with
  | nil => intro s; simp
  | cons x xs ih =>
    intro s
    have h1 := ih (log_successful_execution_update s x)
    constructor
    · rw [List.foldl_cons, h1.1]
      simp [log_successful_execution_update]
      omega
    · intro hc
      have hc1 : (0 : ℤ) ≤ (log_successful_execution_update s x).count := by
        simp [log_successful_execution_update]; omega
      have h2 := h1.2 hc1
      have hcast : ((log_successful_execution_update s x).count : ℚ) = (s.count : ℚ) + 1 := by
        simp [log_successful_execution_update]
      rw [hcast] at h2
      have hne : (s.count : ℚ) + 1 ≠ 0 := by
        have : (0 : ℚ) ≤ (s.count : ℚ) := by exact_mod_cast hc
        positivity
      have havg : (log_successful_execution_update s x).avg * ((s.count : ℚ) + 1) =
          s.avg * (s.count : ℚ) + x := by
        simp only [log_successful_execution_update]
        field_simp
      rw [List.foldl_cons]
      have hlen : (s.count : ℚ) + ((x :: xs).length : ℚ) =
          ((s.count : ℚ) + 1) + (xs.length : ℚ) := by
        rw [List.length_cons]; push_cast; ring
      rw [hlen]
      calc (xs.foldl log_successful_execution_update (log_successful_execution_update s x)).avg *
            ((s.count : ℚ) + 1 + (xs.length : ℚ))
          = (log_successful_execution_update s x).avg * ((s.count : ℚ) + 1) + xs.sum := h2
        _ = s.avg * (s.count : ℚ) + x + xs.sum := by rw [havg]
        _ = s.avg * (s.count : ℚ) + (x :: xs).sum := by rw [List.sum_cons]; ring

/-- Invariant of the `store_latency_metric` fold: count and sum accumulate
and, after at least one update, the stored average is `sum / count`. -/
theorem latency_stats_invariant (L : List ℚ) : ∀ s : LatencyStats,
    (L.foldl store_latency_metric_update s).count = s.count + L.length ∧
    (L.foldl store_latency_metric_update s).sum = s.sum + L.sum ∧
    (L ≠ [] → (L.foldl store_latency_metric_update s).avg_ms =
      (s.sum + L.sum) / ((s.count : ℚ) + (L.length : ℚ))) := by
  induction L with
  | nil => intro s; simp
  | cons x xs ih =>
    intro s
    have h1 := ih (store_latency_metric_update s x)
    refine ⟨?_, ?_, ?_⟩
    · rw [List.foldl_cons, h1.1]
      simp [store_latency_metric_update]
      omega
    · rw [List.foldl_cons, h1.2.1]
      simp [store_latency_metric_update]
      ring
    · intro _
      rw [List.foldl_cons]
      rcases eq_or_ne xs [] with hxs | hxs
      · subst hxs
        simp [store_latency_metric_update]
      · rw [h1.2.2 hxs]
        simp only [store_latency_metric_update]
        rw [List.sum_cons, List.length_cons]
        push_cast
        ring_nf

/-- C5: after folding the latencies `L1..Ln` (n ≥ 1) into the initially
absent (zero) persisted state, the per-symbol average kept by
`OrderExecutor::log_successful_execution` and the per-operation average
kept by `LatencyMonitor::store_latency_metric` both equal the arithmetic
mean of `L1..Ln`, in exact arithmetic. -/
theorem running_average_is_mean (L : List ℚ) (h : L ≠ []) :
    (L.foldl log_successful_execution_update ⟨0, 0⟩).avg = L.sum / (L.length : ℚ) ∧
    (L.foldl log_successful_execution_update ⟨0, 0⟩).count = L.length ∧
    (L.foldl store_latency_metric_update ⟨0, 0, 0⟩).avg_ms = L.sum / (L.length : ℚ) := by
  have h1 := avg_fold_invariant L ⟨0, 0⟩
  have h2 := latency_stats_invariant L ⟨0, 0, 0⟩
  have hlen : (0 : ℚ) < (L.length : ℚ) := by
    have : 0 < L.length := List.length_pos.mpr h
    exact_mod_cast this
  refine ⟨?_, ?_, ?_⟩
  · have h3 := h1.2 (le_refl 0)
    simp only [Int.cast_zero, zero_add, zero_mul] at h3
    rw [eq_div_iff (ne_of_gt hlen)]
    exact h3
  · have h4 := h1.1
    simpa using h4
  · have h5 := h2.2.2 h
    simpa using h5

/-- Concrete witness for C5: the latencies `[2, 4]` yield the persisted
average `(2 + 4) / 2`. -/
theorem running_average_is_mean_witness :
    (([2, 4] : List ℚ).foldl log_successful_execution_update ⟨0, 0⟩).avg =
      ([2, 4] : List ℚ).sum / ((([2, 4] : List ℚ).length : ℕ) : ℚ) ∧
    (([2, 4] : List ℚ).foldl log_successful_execution_update ⟨0, 0⟩).count =
      ([2, 4] : List ℚ).length ∧
    (([2, 4] : List ℚ).foldl store_latency_metric_update ⟨0, 0, 0⟩).avg_ms =
      ([2, 4] : List ℚ).sum / ((([2, 4] : List ℚ).length : ℕ) : ℚ) :=
  running_average_is_mean [2, 4] (by decide)

/-! ## C8: rejected limit updates leave every limit unchanged -/

/-- C8: `update_risk_limits` with a non-positive `max_daily_loss` or
`max_order_size`, and `update_slippage_limit` with a non-positive new
limit, return an error and return the previous limit state entirely
unchanged (no field modified on the error path). -/
theorem limit_update_rejected (s : RiskFilters) (c : SlippageController)
    (mdl mos nl : ℚ) :
    (mdl ≤ 0 ∨ mos ≤ 0 →
      update_risk_limits s mdl mos = (Except.error "Invalid risk limits", s)) ∧
    (nl ≤ 0 →
      update_slippage_limit c nl = (Except.error "Invalid slippage limit", c)) := by
  constructor
  · intro h
    simp [update_risk_limits, h]
  · intro h
    simp [update_slippage_limit, h]

/-- Concrete witness for C8: updating with zero limits is rejected and the
previous limits (0.05, 100000, 50) stay active. -/
theorem limit_update_rejected_witness :
    update_risk_limits ⟨1/20, 100000⟩ 0 (-3) = (Except.error "Invalid risk limits", ⟨1/20, 100000⟩) ∧
    update_slippage_limit ⟨50⟩ 0 = (Except.error "Invalid slippage limit", ⟨50⟩) :=
  ⟨(limit_update_rejected ⟨1/20, 100000⟩ ⟨50⟩ 0 (-3) 0).1 (Or.inl (by norm_num)),
   (limit_update_rejected ⟨1/20, 100000⟩ ⟨50⟩ 0 (-3) 0).2 (by norm_num)⟩

/-! ## C2: order validation — the engine-tree variant has a precedence bug

The claim states `validate_order` is true iff kind ∈ {BUY, SELL} ∧ size > 0
∧ symbol non-empty ∧ size ≤ max order size.  The
`engine_agents/execution` variant satisfies this, but the
`engine/execution` variant (also cited by the claim) parses as
`kind == BUY || (kind == SELL && size > 0 && symbol non-empty)` and never
checks the max order size, so a BUY order with negative size and empty
symbol passes validation and is dispatched. -/

/-- The `engine_agents` variant does satisfy the claimed conjunction, and a
failed validation makes `execute_order` error without reaching dispatch. -/
theorem validate_order_iff (max_order_size : ℚ) (signal : String) (size : ℚ)
    (symbol : String) :
    (validate_order max_order_size signal size symbol = true ↔
      ((signal = "BUY" ∨ signal = "SELL") ∧ 0 < size ∧ ¬ symbol.isEmpty ∧
        size ≤ max_order_size)) ∧
    (validate_order max_order_size signal size symbol = false →
      execute_order max_order_size signal size symbol =
        (Except.error "Invalid order parameters", false)) := by
  constructor
  · unfold validate_order
    by_cases h1 : signal ≠ "BUY" ∧ signal ≠ "SELL"
    · simp [h1]
    · by_cases h2 : size ≤ 0
      · simp [h1, h2]
      · by_cases h3 : symbol.isEmpty
        · simp [h1, h2, h3]
        · by_cases h4 : size > max_order_size
          · simp [h1, h2, h3, h4]
          · simp [h1, h2, h3, h4]
            constructor
            · push_neg at h1
              rcases Classical.em (signal = "BUY") with hb | hb
              · exact Or.inl hb
              · exact Or.inr (h1 hb)
            · exact ⟨by linarith, by linarith⟩
  · intro h
    simp [execute_order, h]

/-- C2 (code bug): at the failing input `signal = "BUY"`, `size = -1`,
`symbol = ""`, the `engine/execution` `validate_order` returns `true`
(claim: `false`, since the size is non-positive and the symbol empty),
its `execute_order` therefore attempts broker dispatch, while the
`engine_agents` variant correctly rejects the same input. -/
theorem validate_order_engine_precedence_bug :
    validate_order_engine "BUY" (-1) "" = true ∧
    validate_order 100000 "BUY" (-1) "" = false ∧
    (execute_order_engine (Except.ok ()) "BUY" (-1) "").2 = true := by
  refine ⟨rfl, by decide, rfl⟩

/-! ## C6: slippage check boundary and rejection message -/

/-- C6: for a positive expected price, `check_slippage` computes
`slippage_bps = |actual - expected| / expected * 10000`, rejects exactly
when it strictly exceeds the configured maximum (returning a message
containing "exceeds limit"), and otherwise records (returns) the
observed slippage. -/
theorem check_slippage_spec (max_slippage_bps expected actual : ℚ)
    (hpos : 0 < expected) :
    (check_slippage max_slippage_bps expected actual =
        Except.ok (|actual - expected| / expected * 10000) ↔
      |actual - expected| / expected * 10000 ≤ max_slippage_bps) ∧
    (max_slippage_bps < |actual - expected| / expected * 10000 →
      ∃ s1 s2, check_slippage max_slippage_bps expected actual =
        Except.error (s1 ++ "exceeds limit" ++ s2)) := by
  constructor
  · unfold check_slippage
    by_cases h : |actual - expected| / expected * 10000 > max_slippage_bps
    · simp [h]
    · simp [h]
      linarith
  · intro h
    unfold check_slippage
    rw [if_pos (by simpa using h)]
    exact ⟨"Slippage " ++ numStr (|actual - expected| / expected * 10000) ++ " bps ",
      " " ++ numStr max_slippage_bps ++ " bps", rfl⟩

/-- Concrete witness for C6: with the default 50 bps limit,
expected 100.0 / actual 100.5 (exactly 50 bps) passes and records 50 bps,
while expected 100.0 / actual 100.51 (51 bps) is rejected with a message
containing "exceeds limit". -/
theorem check_slippage_spec_witness :
    check_slippage 50 100 (201/2) = Except.ok 50 ∧
    (∃ s1 s2, check_slippage 50 100 (10051/100) =
      Except.error (s1 ++ "exceeds limit" ++ s2)) := by
  constructor
  · have hv : |(201/2 : ℚ) - 100| / 100 * 10000 = 50 := by
      rw [abs_of_nonneg (by norm_num : (0:ℚ) ≤ 201/2 - 100)]
      norm_num
    have h := (check_slippage_spec 50 100 (201/2) (by norm_num)).1.mpr (by rw [hv])
    rw [hv] at h
    exact h
  · have hv : |(10051/100 : ℚ) - 100| / 100 * 10000 = 51 := by
      rw [abs_of_nonneg (by norm_num : (0:ℚ) ≤ 10051/100 - 100)]
      norm_num
    exact (check_slippage_spec 50 100 (10051/100) (by norm_num)).2
      (by rw [hv]; norm_num)

/-! ## C9: percentile queries are nearest-rank but NOT clamped -/

/-- C9 counterexample: with one recorded sample, percentile 1.0 (a value
the claim says always yields the maximum sample) computes index
`(1.0 * 1) as usize = 1`, which is out of range, and the code returns
`None` instead of the claimed `Some` of the maximum. -/
theorem get_percentile_latency_p1_none :
    get_percentile_latency [("op", [5])] "op" 1 = none := by
  have h : (⌊(1 : ℚ) * ((([5] : List ℕ).length : ℕ) : ℚ)⌋).toNat = 1 := by norm_num
  simp [get_percentile_latency, h]

/-- C9 (amended): for an operation holding n ≥ 1 samples and percentile
0 ≤ P, `get_percentile_latency` indexes a sorted copy at the unclamped
index `⌊P * n⌋`: for P < 1 this index is in range and the nearest-rank
element is returned, while for P = 1 the index equals n and the function
returns `None` (no clamping). -/
theorem get_percentile_latency_amended (ops : List (String × List ℕ))
    (op : String) (ms : List ℕ) (p : ℚ) (hl : ops.lookup op = some ms)
    (hms : ms ≠ []) (h0 : 0 ≤ p) :
    (p < 1 → (⌊p * (ms.length : ℚ)⌋).toNat < ms.length ∧
      get_percentile_latency ops op p =
        (ms.insertionSort (· ≤ ·)).get? (⌊p * (ms.length : ℚ)⌋).toNat ∧
      (get_percentile_latency ops op p).isSome = true) ∧
    (p = 1 → get_percentile_latency ops op p = none) := by
  have hlen : 0 < ms.length := List.length_pos.mpr hms
  have hcomp : get_percentile_latency ops op p =
      (ms.insertionSort (· ≤ ·)).get? (⌊p * (ms.length : ℚ)⌋).toNat := by
    simp only [get_percentile_latency, hl]
    rw [if_neg (by simpa [List.isEmpty_iff] using hms)]
  constructor
  · intro hp1
    have hnn : (0 : ℤ) ≤ ⌊p * (ms.length : ℚ)⌋ := by
      apply Int.floor_nonneg.mpr
      positivity
    have hlt : ⌊p * (ms.length : ℚ)⌋ < (ms.length : ℤ) := by
      apply Int.floor_lt.mpr
      push_cast
      have hq : (0 : ℚ) < (ms.length : ℚ) := by exact_mod_cast hlen
      nlinarith
    have hidx : (⌊p * (ms.length : ℚ)⌋).toNat < ms.length := by omega
    refine ⟨hidx, hcomp, ?_⟩
    rw [hcomp, List.get?_eq_get (by rw [List.length_insertionSort]; exact hidx)]
    rfl
  · intro hp1
    subst hp1
    rw [hcomp]
    apply List.get?_eq_none.mpr
    rw [List.length_insertionSort]
    simp

/-- Concrete witness for the amended C9: three samples `[3, 1, 2]`,
percentile 0.5 gives index ⌊0.5·3⌋ = 1 of the sorted copy `[1, 2, 3]`,
i.e. 2; percentile 1.0 gives `None`. -/
theorem get_percentile_latency_amended_witness :
    get_percentile_latency [("broker_execution", [3, 1, 2])] "broker_execution" (1/2) = some 2 ∧
    get_percentile_latency [("broker_execution", [3, 1, 2])] "broker_execution" 1 = none := by
  have h1 := (get_percentile_latency_amended [("broker_execution", [3, 1, 2])]
    "broker_execution" [3, 1, 2] (1/2) rfl (by decide) (by norm_num)).1 (by norm_num)
  have h2 := get_percentile_latency_amended [("broker_execution", [3, 1, 2])]
    "broker_execution" [3, 1, 2] 1 rfl (by decide) (by norm_num)
  have hidx : (⌊(1/2 : ℚ) * ((([3, 1, 2] : List ℕ).length : ℕ) : ℚ)⌋).toNat = 1 := by
    norm_num
  constructor
  · rw [h1.2.1, hidx]
    rfl
  · exact h2.2 rfl

/-! ## C10: a missing leverage field defaults to 1.0 in the risk assessor -/

/-- C10: when the input has a symbol and a size but no leverage field,
`RiskAssessor::validate` substitutes leverage 1.0 (`unwrap_or(1.0)`): it
does not produce a missing-field error, never rejects for exceeding the
leverage limit (whenever the configured limit admits 1.0, as the default
10.0 does), and the exposure check compares
`portfolio_exposure(symbol) + size * 1` against the exposure limit. -/
theorem risk_assessor_default_leverage (max_leverage max_exposure : ℚ)
    (store : Store) (input : Input) (s : String) (sz : ℚ)
    (hsym : input.symbol = some s) (hsz : input.size = some sz)
    (hlev : input.leverage = none) (hml : 1 ≤ max_leverage) :
    riskAssessorValidate max_leverage max_exposure store input =
      (if store.connOk = false then Except.error store.connErr
       else if readOr 0 (store.exposure s) + sz * 1 > max_exposure then
         Except.error ("Total exposure " ++ numStr (readOr 0 (store.exposure s) + sz * 1) ++
           " exceeds limit " ++ numStr max_exposure)
       else Except.ok ()) := by
  unfold riskAssessorValidate
  rw [hsym, hsz, hlev]
  simp only [Option.getD_none]
  rw [if_neg (not_lt.mpr hml)]

/-- Concrete witness for C10: symbol and size present, no leverage, default
limits, healthy store with no recorded exposure: the signal passes the risk
check using leverage 1. -/
theorem risk_assessor_default_leverage_witness :
    riskAssessorValidate 10 (1/10) storeHealthy inputNoLeverage = Except.ok () := by
  rw [risk_assessor_default_leverage 10 (1/10) storeHealthy inputNoLeverage
    "EURUSD" (1/100) rfl rfl rfl (by norm_num)]
  norm_num [storeHealthy, readOr]

/-! ## C7: store unavailability during safety-gating reads -/

/-- C7 counterexample: a store whose connection succeeds but whose GETs
fail (`unwrap_or` swallows the command error): the exposure read of the
risk assessor falls back to 0.0 and the restricted-set read of the
compliance check falls back to the empty list, so both validators return
`Ok` — the checks silently pass although the store was unavailable during
the gating reads, contradicting the claim. -/
theorem store_unavailable_read_passes_open :
    riskAssessorValidate 10 (1/10) storeReadsFail inputNoLeverage = Except.ok () ∧
    complianceValidate ["US", "EU"] storeReadsFail inputUS = Except.ok () := by
  constructor
  · norm_num [riskAssessorValidate, storeReadsFail, inputNoLeverage, readOr]
  · norm_num [complianceValidate, storeReadsFail, inputUS, inputNoLeverage, readOr]

/-- C7 (amended): when the store connection itself cannot be established
(`get_async_connection` fails, `?` propagates), both
`RiskAssessor::validate` and `Compliance::validate` do fail closed,
returning the connection error so the signal is rejected; only an error on
the subsequent GET is replaced by the default value and can let the check
pass (see the counterexample). -/
theorem store_connection_failure_fails_closed (max_leverage max_exposure : ℚ)
    (regions : List String) (store : Store) (input : Input) (s r : String)
    (sz : ℚ) (hc : store.connOk = false) (hsym : input.symbol = some s)
    (hsz : input.size = some sz) (hlev : input.leverage.getD 1 ≤ max_leverage)
    (hreg : input.region = some r) (hr : regions.contains r = true) :
    riskAssessorValidate max_leverage max_exposure store input =
      Except.error store.connErr ∧
    complianceValidate regions store input = Except.error store.connErr := by
  constructor
  · simp only [riskAssessorValidate, hsym, hsz]
    rw [if_neg (not_lt.mpr hlev), if_pos hc]
  · simp only [complianceValidate, hsym, hreg]
    rw [if_neg (not_not_intro hr), if_pos hc]

/-- Concrete witness for the amended C7: with the connection down, both
validators reject with the connection error. -/
theorem store_connection_failure_fails_closed_witness :
    riskAssessorValidate 10 (1/10) storeDown inputUS = Except.error "redis connection refused" ∧
    complianceValidate ["US", "EU"] storeDown inputUS = Except.error "redis connection refused" := by
  have h := store_connection_failure_fails_closed 10 (1/10) ["US", "EU"]
    storeDown inputUS "EURUSD" "US" (1/100) rfl rfl rfl
    (by norm_num [inputUS, inputNoLeverage]) rfl (by decide)
  exact h

/-! ## C1: the first failing check determines the verdict, later
validators are never evaluated -/

/-- `validate_data` only touches the detail map on its failure branches. -/
theorem validate_data_ok_details (now : ℤ) (input : Input) (d r : Details)
    (h : validate_data now input d = (Except.ok (), r)) : r = d := by
  unfold validate_data at h
  repeat' split at h
  all_goals simp_all

/-- C1: whenever at least two of the router's checks (in declared order:
data-sanity, risk, stop-loss, strategy, goal-alignment, liquidity) would
fail on a signal, the verdict's reason is exactly the stage-labelled
message of the earliest-declared failing check (the data-sanity pass
reports its message bare, as the code does), and the evaluated checks are
precisely those up to and including that first failing one — every
validator placed after it is never invoked. -/
theorem router_first_failure (cfg : RouterConfig) (now : ℤ) (store : Store)
    (input : Input)
    (h2 : 2 ≤ (failingChecks cfg now store input).length) :
    ∀ name e, (failingChecks cfg now store input).head? = some (name, Except.error e) →
      (routerValidate cfg now store input).reason = stageMessage name e ∧
      (routerValidateTrace cfg now store input).2 = stagesUpTo name := by
  intro name e hhead
  rcases hvd : validate_data now input [] with ⟨r1, d1⟩
  cases r1 with
  | error e1 =>
    simp [failingChecks, routerChecks, hvd, isErr, List.filter] at hhead
    obtain ⟨hn, he⟩ := hhead
    subst hn; subst he
    constructor
    · simp [routerValidate, routerValidateTrace, hvd]
      rfl
    · simp [routerValidateTrace, hvd]
      rfl
  | ok u =>
    cases u
    cases hr : riskAssessorValidate cfg.max_leverage cfg.max_exposure store input with
    | error e2 =>
      simp [failingChecks, routerChecks, hvd, hr, isErr, List.filter] at hhead
      obtain ⟨hn, he⟩ := hhead
      subst hn; subst he
      constructor
      · simp [routerValidate, routerValidateTrace, hvd, hr]
        rfl
      · simp [routerValidateTrace, hvd, hr]
        rfl
    | ok u =>
      cases u
      cases hsl : stopLossCheckerValidate cfg.min_sl_ratio input with
      | error e3 =>
        simp [failingChecks, routerChecks, hvd, hr, hsl, isErr, List.filter] at hhead
        obtain ⟨hn, he⟩ := hhead
        subst hn; subst he
        constructor
        · simp [routerValidate, routerValidateTrace, hvd, hr, hsl]
          rfl
        · simp [routerValidateTrace, hvd, hr, hsl]
          rfl
      | ok u =>
        cases u
        cases hst : strategyFilterValidate cfg.max_time_window now store input with
        | error e4 =>
          simp [failingChecks, routerChecks, hvd, hr, hsl, hst, isErr, List.filter] at hhead
          obtain ⟨hn, he⟩ := hhead
          subst hn; subst he
          constructor
          · simp [routerValidate, routerValidateTrace, hvd, hr, hsl, hst]
            rfl
          · simp [routerValidateTrace, hvd, hr, hsl, hst]
            rfl
        | ok u =>
          cases u
          cases hg : goalAlignmentValidate cfg.max_risk_reward_ratio input with
          | error e5 =>
            simp [failingChecks, routerChecks, hvd, hr, hsl, hst, hg, isErr, List.filter] at hhead
            obtain ⟨hn, he⟩ := hhead
            subst hn; subst he
            constructor
            · simp [routerValidate, routerValidateTrace, hvd, hr, hsl, hst, hg]
              rfl
            · simp [routerValidateTrace, hvd, hr, hsl, hst, hg]
              rfl
          | ok u =>
            cases u
            cases hlq : liquidityValidatorValidate cfg.min_liquidity_ratio store input with
            | error e6 =>
              simp [failingChecks, routerChecks, hvd, hr, hsl, hst, hg, hlq, isErr, List.filter] at hhead
              obtain ⟨hn, he⟩ := hhead
              subst hn; subst he
              constructor
              · simp [routerValidate, routerValidateTrace, hvd, hr, hsl, hst, hg, hlq]
                rfl
              · simp [routerValidateTrace, hvd, hr, hsl, hst, hg, hlq]
                rfl
            | ok u =>
              cases u
              simp [failingChecks, routerChecks, hvd, hr, hsl, hst, hg, hlq, isErr, List.filter] at hhead

/-- Concrete witness for C1: a signal whose leverage violates the risk
check and whose liquidity check also fails (zero market depth): two checks
fail, the verdict carries the risk stage's labelled message, and only the
data and risk checks are evaluated. -/
theorem router_first_failure_witness :
    2 ≤ (failingChecks {} 1000 storeDepthZero inputTwoViolations).length ∧
    (routerValidate {} 1000 storeDepthZero inputTwoViolations).reason =
      stageMessage "risk" ("Leverage " ++ numStr 100 ++ " exceeds limit " ++ numStr 10) ∧
    (routerValidateTrace {} 1000 storeDepthZero inputTwoViolations).2 = stagesUpTo "risk" := by
  have hlen : 2 ≤ (failingChecks {} 1000 storeDepthZero inputTwoViolations).length := by
    norm_num [failingChecks, routerChecks, isErr, validate_data, riskAssessorValidate,
      stopLossCheckerValidate, strategyFilterValidate, goalAlignmentValidate,
      liquidityValidatorValidate, storeDepthZero, inputTwoViolations, readOr,
      abs_of_nonneg, (by decide : "EURUSD".isEmpty = false)]
  have hhead : (failingChecks {} 1000 storeDepthZero inputTwoViolations).head? =
      some ("risk", Except.error ("Leverage " ++ numStr 100 ++ " exceeds limit " ++ numStr 10)) := by
    norm_num [failingChecks, routerChecks, isErr, validate_data, riskAssessorValidate,
      stopLossCheckerValidate, strategyFilterValidate, goalAlignmentValidate,
      liquidityValidatorValidate, storeDepthZero, inputTwoViolations, readOr,
      abs_of_nonneg, (by decide : "EURUSD".isEmpty = false)]
  obtain ⟨hr1, hr2⟩ := router_first_failure {} 1000 storeDepthZero inputTwoViolations hlen
    "risk" ("Leverage " ++ numStr 100 ++ " exceeds limit " ++ numStr 10) hhead
  exact ⟨hlen, hr1, hr2⟩

/-! ## C3: the per-check details map -/

/-- Inserting a pair into a detail map makes the pair a member. -/
theorem detailsInsert_mem (d : Details) (k : String) (v : Bool) :
    (k, v) ∈ detailsInsert d k v := by
  unfold detailsInsert
  by_cases h : d.any (fun p => p.1 = k)
  · rw [if_pos h]
    obtain ⟨p, hp, hpk⟩ := List.any_eq_true.mp h
    have hk : p.1 = k := of_decide_eq_true hpk
    exact List.mem_map.mpr ⟨p, hp, by simp [hk]⟩
  · rw [if_neg h]
    exact List.mem_append_right _ (List.mem_singleton.mpr rfl)

/-- C3 counterexample: on a signal whose data-sanity pass succeeds but
whose risk check fails, the verdict's detail map records `data_check`
as `false` (the router inserts `data_check := (status == "valid")` at the
end), so a reached check that passed is recorded `false` — and the reached,
passed risk predecessor `data` is not marked attempted-and-true; the map is
exactly `risk_check ↦ false, data_check ↦ false`. -/
theorem router_details_cex :
    (validate_data 1000 inputTwoViolations []).1 = Except.ok () ∧
    (routerValidate {} 1000 storeDepthZero inputTwoViolations).details =
      [("risk_check", false), ("data_check", false)] := by
  constructor
  · norm_num [validate_data, inputTwoViolations,
      (by decide : "EURUSD".isEmpty = false)]
  · norm_num [routerValidate, routerValidateTrace, validate_data,
      riskAssessorValidate, inputTwoViolations, storeDepthZero, detailsInsert,
      (by decide : "EURUSD".isEmpty = false),
      (by decide : "risk_check" ≠ "data_check"),
      (by decide : ("reject" == "valid") = false)]

/-- C3 (amended): for every signal the verdict's detail map is exactly:
`data_check ↦ (status == valid)` alone when every check passes; on a
data-sanity failure, the specific data sub-entry recorded by
`validate_data` plus `data_check ↦ false`; on a first failure at validator
stage `name`, exactly `name_check ↦ false` and `data_check ↦ false` —
so reached-and-passed validators get no entry and `data_check` mirrors the
overall status rather than the data-sanity outcome.  The claim's
iff-invariant does hold: the status is "reject" exactly when some entry of
the map is `false`. -/
theorem router_details_spec (cfg : RouterConfig) (now : ℤ) (store : Store)
    (input : Input) :
    ((routerValidate cfg now store input).status = "reject" ↔
      ∃ p ∈ (routerValidate cfg now store input).details, p.2 = false) ∧
    (failingChecks cfg now store input = [] →
      (routerValidate cfg now store input).status = "valid" ∧
      (routerValidate cfg now store input).details = [("data_check", true)]) ∧
    (∀ e, (failingChecks cfg now store input).head? = some ("data", Except.error e) →
      (routerValidate cfg now store input).details =
        detailsInsert (validate_data now input []).2 "data_check" false) ∧
    (∀ name e, (failingChecks cfg now store input).head? = some (name, Except.error e) →
      name ≠ "data" →
      (routerValidate cfg now store input).details =
        [(checkKey name, false), ("data_check", false)]) := by
  have hbr : ("reject" == "valid") = false := by decide
  have hbv : ("valid" == "valid") = true := by decide
  rcases hvd : validate_data now input [] with ⟨r1, d1⟩
  cases r1 with
  | error e1 =>
    refine ⟨?_, ?_, ?_, ?_⟩
    · simp only [routerValidate, routerValidateTrace, hvd, hbr]
      constructor
      · intro _
        exact ⟨("data_check", false), detailsInsert_mem d1 "data_check" false, rfl⟩
      · intro _
        trivial
    · intro hfc
      simp [failingChecks, routerChecks, hvd, isErr] at hfc
    · intro e hhead
      simp only [routerValidate, routerValidateTrace, hvd, hbr]
    · intro name e hhead hname
      simp [failingChecks, routerChecks, hvd, isErr] at hhead
      exact absurd hhead.1.symm hname
  | ok u =>
    cases u
    have hd1 : d1 = [] := validate_data_ok_details now input [] d1 hvd
    subst hd1
    cases hr : riskAssessorValidate cfg.max_leverage cfg.max_exposure store input with
    | error e2 =>
      refine ⟨?_, ?_, ?_, ?_⟩
      · simp only [routerValidate, routerValidateTrace, hvd, hr, hbr]
        constructor
        · intro _
          exact ⟨("data_check", false), detailsInsert_mem _ "data_check" false, rfl⟩
        · intro _
          trivial
      · intro hfc
        simp [failingChecks, routerChecks, hvd, hr, isErr] at hfc
      · intro e hhead
        simp [failingChecks, routerChecks, hvd, hr, isErr] at hhead
      · intro name e hhead hname
        simp [failingChecks, routerChecks, hvd, hr, isErr] at hhead
        obtain ⟨hn, he⟩ := hhead
        subst hn
        have hck : checkKey "risk" = "risk_check" := by decide
        rw [hck]
        simp [routerValidate, routerValidateTrace, hvd, hr, detailsInsert, hbr,
          (by decide : "risk_check" ≠ "data_check")]
    | ok u =>
      cases u
      cases hsl : stopLossCheckerValidate cfg.min_sl_ratio input with
      | error e3 =>
        refine ⟨?_, ?_, ?_, ?_⟩
        · simp only [routerValidate, routerValidateTrace, hvd, hr, hsl, hbr]
          constructor
          · intro _
            exact ⟨("data_check", false), detailsInsert_mem _ "data_check" false, rfl⟩
          · intro _
            trivial
        · intro hfc
          simp [failingChecks, routerChecks, hvd, hr, hsl, isErr] at hfc
        · intro e hhead
          simp [failingChecks, routerChecks, hvd, hr, hsl, isErr] at hhead
        · intro name e hhead hname
          simp [failingChecks, routerChecks, hvd, hr, hsl, isErr] at hhead
          obtain ⟨hn, he⟩ := hhead
          subst hn
          have hck : checkKey "stop_loss" = "stop_loss_check" := by decide
          rw [hck]
          simp [routerValidate, routerValidateTrace, hvd, hr, hsl, detailsInsert, hbr,
            (by decide : "stop_loss_check" ≠ "data_check")]
      | ok u =>
        cases u
        cases hst : strategyFilterValidate cfg.max_time_window now store input with
        | error e4 =>
          refine ⟨?_, ?_, ?_, ?_⟩
          · simp only [routerValidate, routerValidateTrace, hvd, hr, hsl, hst, hbr]
            constructor
            · intro _
              exact ⟨("data_check", false), detailsInsert_mem _ "data_check" false, rfl⟩
            · intro _
              trivial
          · intro hfc
            simp [failingChecks, routerChecks, hvd, hr, hsl, hst, isErr] at hfc
          · intro e hhead
            simp [failingChecks, routerChecks, hvd, hr, hsl, hst, isErr] at hhead
          · intro name e hhead hname
            simp [failingChecks, routerChecks, hvd, hr, hsl, hst, isErr] at hhead
            obtain ⟨hn, he⟩ := hhead
            subst hn
            have hck : checkKey "strategy" = "strategy_check" := by decide
            rw [hck]
            simp [routerValidate, routerValidateTrace, hvd, hr, hsl, hst, detailsInsert, hbr,
              (by decide : "strategy_check" ≠ "data_check")]
        | ok u =>
          cases u
          cases hg : goalAlignmentValidate cfg.max_risk_reward_ratio input with
          | error e5 =>
            refine ⟨?_, ?_, ?_, ?_⟩
            · simp only [routerValidate, routerValidateTrace, hvd, hr, hsl, hst, hg, hbr]
              constructor
              · intro _
                exact ⟨("data_check", false), detailsInsert_mem _ "data_check" false, rfl⟩
              · intro _
                trivial
            · intro hfc
              simp [failingChecks, routerChecks, hvd, hr, hsl, hst, hg, isErr] at hfc
            · intro e hhead
              simp [failingChecks, routerChecks, hvd, hr, hsl, hst, hg, isErr] at hhead
            · intro name e hhead hname
              simp [failingChecks, routerChecks, hvd, hr, hsl, hst, hg, isErr] at hhead
              obtain ⟨hn, he⟩ := hhead
              subst hn
              have hck : checkKey "goal" = "goal_check" := by decide
              rw [hck]
              simp [routerValidate, routerValidateTrace, hvd, hr, hsl, hst, hg, detailsInsert, hbr,
                (by decide : "goal_check" ≠ "data_check")]
          | ok u =>
            cases u
            cases hlq : liquidityValidatorValidate cfg.min_liquidity_ratio store input with
            | error e6 =>
              refine ⟨?_, ?_, ?_, ?_⟩
              · simp only [routerValidate, routerValidateTrace, hvd, hr, hsl, hst, hg, hlq, hbr]
                constructor
                · intro _
                  exact ⟨("data_check", false), detailsInsert_mem _ "data_check" false, rfl⟩
                · intro _
                  trivial
              · intro hfc
                simp [failingChecks, routerChecks, hvd, hr, hsl, hst, hg, hlq, isErr] at hfc
              · intro e hhead
                simp [failingChecks, routerChecks, hvd, hr, hsl, hst, hg, hlq, isErr] at hhead
              · intro name e hhead hname
                simp [failingChecks, routerChecks, hvd, hr, hsl, hst, hg, hlq, isErr] at hhead
                obtain ⟨hn, he⟩ := hhead
                subst hn
                have hck : checkKey "liquidity" = "liquidity_check" := by decide
                rw [hck]
                simp [routerValidate, routerValidateTrace, hvd, hr, hsl, hst, hg, hlq, detailsInsert, hbr,
                  (by decide : "liquidity_check" ≠ "data_check")]
            | ok u =>
              cases u
              refine ⟨?_, ?_, ?_, ?_⟩
              · simp [routerValidate, routerValidateTrace, hvd, hr, hsl, hst, hg, hlq,
                  detailsInsert, hbv, (by decide : "valid" ≠ "reject")]
              · intro _
                simp [routerValidate, routerValidateTrace, hvd, hr, hsl, hst, hg, hlq,
                  detailsInsert, hbv]
              · intro e hhead
                simp [failingChecks, routerChecks, hvd, hr, hsl, hst, hg, hlq, isErr] at hhead
              · intro name e hhead hname
                simp [failingChecks, routerChecks, hvd, hr, hsl, hst, hg, hlq, isErr] at hhead

/-- Concrete witness for the amended C3: on the two-violations signal the
detail map is exactly `risk_check ↦ false, data_check ↦ false` and the
status is "reject" (via the iff, since an entry is false). -/
theorem router_details_spec_witness :
    (routerValidate {} 1000 storeDepthZero inputTwoViolations).details =
      [(checkKey "risk", false), ("data_check", false)] ∧
    (routerValidate {} 1000 storeDepthZero inputTwoViolations).status = "reject" := by
  have h := router_details_spec {} 1000 storeDepthZero inputTwoViolations
  have hhead : (failingChecks {} 1000 storeDepthZero inputTwoViolations).head? =
      some ("risk", Except.error ("Leverage " ++ numStr 100 ++ " exceeds limit " ++ numStr 10)) := by
    norm_num [failingChecks, routerChecks, isErr, validate_data, riskAssessorValidate,
      stopLossCheckerValidate, strategyFilterValidate, goalAlignmentValidate,
      liquidityValidatorValidate, storeDepthZero, inputTwoViolations, readOr,
      abs_of_nonneg, (by decide : "EURUSD".isEmpty = false)]
  have hd := h.2.2.2 "risk" ("Leverage " ++ numStr 100 ++ " exceeds limit " ++ numStr 10)
    hhead (by decide)
  refine ⟨hd, ?_⟩
  apply h.1.mpr
  exact ⟨(checkKey "risk", false), by rw [hd]; exact List.mem_cons_self _ _, rfl⟩

end SwiftAiTrader
